import Mathlib

/-!
Verification development for `src/aider/server.py`: a small HTTP server exposing
a pre-existing "coder" object over two routes, `POST /chat` and `GET /file`.

The Python code is shallowly embedded below. Pure path manipulation
(`os.path.join`, `os.path.normpath`, `str.startswith`) is translated function by
function from CPython's `posixpath` module. The file system is modelled as a
finite association list from normalized absolute path strings to file contents
(a symlink-free POSIX view: two paths denote the same regular file exactly when
their normalized forms coincide). The coder is the black-box collaborator the
code imports: a record of its `run`, `run_stream`, `repo.root`, `stream` and
`pretty` members, with Python exceptions made explicit as `Except PyExc`.

One behaviour of the handlers deserves emphasis because it is load-bearing for
several theorems: in `get_file` the statement
`raise HTTPException(status_code=404, ...)` sits *inside* the `try` block, and
`except Exception as e` catches `HTTPException` (a subclass of `Exception`), so
the handler's own 404 is re-wrapped by the `except` clause into
`HTTPException(status_code=500, detail=f"{str(e)}\n{traceback.format_exc()}")`.
The embedding reproduces this faithfully.
-/

namespace AiderServer

/-! ## Python path primitives (translated from CPython `posixpath`) -/

/-- `str.startswith`: `p` is a literal character-prefix of `s`. -/
def pyStartswith (s p : String) : Bool :=
  List.isPrefixOf p.data s.data

/-- `str.endswith`: `p` is a literal character-suffix of `s`. -/
def pyEndswith (s p : String) : Bool :=
  List.isSuffixOf p.data s.data

/-- `os.path.join(a, b)` for POSIX, two arguments: an absolute `b` discards `a`;
otherwise `b` is appended, inserting a separator unless `a` is empty or already
ends with one. -/
def os_join (a b : String) : String :=
  if pyStartswith b "/" then b
  else if a = "" || pyEndswith a "/" then a ++ b
  else a ++ "/" ++ b

/-- `path.split("/")` (Python `str.split` with an explicit separator): every
occurrence of `'/'` separates two components, and empty components are kept. -/
def splitSlash : List Char → List (List Char)
  | [] => [[]]
  | c :: rest =>
    match splitSlash rest with
    | [] => [[]]
    | s :: ss => if c = '/' then [] :: s :: ss else (c :: s) :: ss

/-- `"/".join(comps)`. -/
def joinSlash : List String → String
  | [] => ""
  | [c] => c
  | c :: rest => c ++ "/" ++ joinSlash rest

/-- The component-collapsing loop of `posixpath.normpath`: drop empty and `"."`
components; `".."` pops the previous component except at the start of a relative
path or after an uncollapsed `".."`, and is dropped at an absolute root. -/
def normpathFold (initialSlashes : Nat) (comps : List String) : List String :=
  comps.foldl (fun acc comp =>
    if comp = "" || comp = "." then acc
    else if comp ≠ ".." || (initialSlashes = 0 && acc = []) ||
        (acc ≠ [] && acc.getLast? = some "..") then acc ++ [comp]
    else if acc ≠ [] then acc.dropLast
    else acc) []

/-- `os.path.normpath` for POSIX: collapse separators, `"."` and `".."`
lexically; `""` becomes `"."`; exactly two leading slashes are preserved. -/
def normpath (path : String) : String :=
  if path = "" then "."
  else
    let initialSlashes : Nat :=
      if pyStartswith path "/" then
        if pyStartswith path "//" && !(pyStartswith path "///") then 2 else 1
      else 0
    let comps := (splitSlash path.data).map String.mk
    let newComps := normpathFold initialSlashes comps
    let res := String.mk (List.replicate initialSlashes '/') ++ joinSlash newComps
    if res = "" then "." else res

/-! ## File system model -/

/-- A symlink-free file system: finitely many regular files, keyed by their
normalized absolute path. -/
abbrev FS := List (String × String)

/-- Contents of the regular file a path denotes, if any. -/
def lookupFS (fs : FS) (p : String) : Option String :=
  (fs.find? (fun q => q.1 == normpath p)).map (fun q => q.2)

/-- `os.path.isfile`: the path denotes an existing regular file. -/
def isfile (fs : FS) (p : String) : Bool :=
  (lookupFS fs p).isSome

/-- The bytes `FileResponse` would read from disk for the path. -/
def fileBytes (fs : FS) (p : String) : String :=
  (lookupFS fs p).getD ""

/-! ## Coder, requests, responses -/

/-- A Python exception value as the handlers observe it: `msg` is `str(e)` and
`trace` is `traceback.format_exc()` at the catch site. -/
structure PyExc where
  msg : String
  trace : String
deriving DecidableEq, Repr

/-- The black-box coder collaborator: `run`, `run_stream`, `repo.root`, and the
two flags `start_server` forces. Calls that raise are `.error`. -/
structure Coder where
  run : String → Except PyExc String
  run_stream : String → Except PyExc (List String)
  repoRoot : String
  stream : Bool
  pretty : Bool

/-- `class ChatRequest(BaseModel): message: str; stream: bool = True`. -/
structure ChatRequest where
  message : String
  stream : Bool := true
deriving DecidableEq, Repr

/-- The HTTP responses the two handlers can produce. `file` records the path
handed to `FileResponse` (from which the media type is inferred) and the body
bytes; `chatJSON` is a 200 with JSON `{"content": ...}`; `streamResp` is a 200
`text/plain` body sent as the listed chunks in order; `httpError` carries the
status and detail of an uncaught `HTTPException`. -/
inductive Response where
  | file (path : String) (body : String)
  | chatJSON (content : String)
  | streamResp (chunks : List String)
  | httpError (status : Nat) (detail : String)
deriving DecidableEq, Repr

/-- `str(e)` for a `starlette.exceptions.HTTPException`:
`f"{self.status_code}: {self.detail}"`. -/
def httpExcStr (status : Nat) (detail : String) : String :=
  toString status ++ ": " ++ detail

/-- Process-lifetime server state: the shared coder and the file system. -/
structure ServerState where
  coder : Coder
  fs : FS

/-! ## Handlers -/

/-- `process_generator`: iterate the synchronous generator, yielding each chunk
unchanged (the `await asyncio.sleep(0)` after each chunk is a pure scheduler
yield with no effect on the emitted data). -/
def process_generator : List String → List String
  | [] => []
  | c :: rest => c :: process_generator rest

/-- The `POST /chat` handler. State is threaded explicitly; the handler only
reads the coder. A coder exception is caught and re-raised as
`HTTPException(500, f"{str(e)}\n{traceback.format_exc()}")`. -/
def chat (st : ServerState) (request : ChatRequest) : ServerState × Response :=
  if request.stream then
    match st.coder.run_stream request.message with
    | .ok generator => (st, .streamResp (process_generator generator))
    | .error e => (st, .httpError 500 (e.msg ++ "\n" ++ e.trace))
  else
    match st.coder.run request.message with
    | .ok response => (st, .chatJSON response)
    | .error e => (st, .httpError 500 (e.msg ++ "\n" ++ e.trace))

/-- The `GET /file` handler. `tb` is the text `traceback.format_exc()` yields at
the `except` site. When either validation check fails the handler raises
`HTTPException(404, f"File not found: {file_path}")` inside the `try`; the
blanket `except Exception` catches it and re-raises
`HTTPException(500, f"{str(e)}\n{traceback.format_exc()}")`, so the outgoing
response is a 500 whose detail embeds the 404 message. -/
def get_file (st : ServerState) (file_path : String) (tb : String) :
    ServerState × Response :=
  let repo_root := st.coder.repoRoot
  let full_path := os_join repo_root file_path
  if !(isfile st.fs full_path) ||
      !(pyStartswith (normpath full_path) (normpath repo_root)) then
    (st, .httpError 500
      (httpExcStr 404 ("File not found: " ++ file_path) ++ "\n" ++ tb))
  else
    (st, .file full_path (fileBytes st.fs full_path))

/-- A request as the server loop sees it: a parsed chat body, or a `/file`
query (with the ambient traceback text for its `except` site). -/
inductive Request where
  | chatReq (r : ChatRequest)
  | fileReq (file_path : String) (tb : String)

/-- Route dispatch: run the matching handler on the current state. -/
def handle (st : ServerState) : Request → ServerState × Response
  | .chatReq r => chat st r
  | .fileReq p tb => get_file st p tb

/-- Serve a sequence of requests, threading the state. -/
def serveAll (st : ServerState) : List Request → ServerState
  | [] => st
  | r :: rest => serveAll (handle st r).1 rest

/-- `start_server` up to the point the listener starts: build the coder, then
force `coder.stream = True` and `coder.pretty = False` before any request is
accepted. Returns the state the serve loop starts from. -/
def start_server (coder0 : Coder) (fs : FS) : ServerState :=
  { coder := { coder0 with stream := true, pretty := false }, fs := fs }

/-! ## Validation of the chat body (the pydantic layer) -/

/-- A raw JSON chat body: each field present or absent. -/
structure RawChatBody where
  message : Option String
  stream : Option Bool
deriving DecidableEq, Repr

/-- Modelled from the spec: pydantic validation of `ChatRequest` (the pydantic
machinery itself is not under `src/`; the field declarations and the default
`stream: bool = True` are `src/aider/server.py` lines 13-15). A body lacking the
required `message` is rejected before the handler runs; an omitted `stream`
takes the declared default `true`. -/
def parseChatRequest (body : RawChatBody) : Except String ChatRequest :=
  match body.message with
  | none => .error "field required: message"
  | some m => .ok { message := m, stream := body.stream.getD true }

/-! ## The spec's is-descendant relation -/

/-- Written to the spec's words (not the source): `child` is a *true descendant*
of `root` when, after normalization, it is strictly below `root` as a path — it
differs from `root` and continues it at a component boundary. Used to compare
the spec's containment requirement with the source's string-prefix check. -/
def isTrueDescendant (child root : String) : Bool :=
  let nr := normpath root
  let nc := normpath child
  let nrSlash := if pyEndswith nr "/" then nr else nr ++ "/"
  nc ≠ nr && pyStartswith nc nrSlash

/-! ## Helper lemmas -/

/-- Dropping a suffix of the pattern preserves `List.isPrefixOf`. -/
theorem isPrefixOf_of_append (a b c : List Char)
    (h : List.isPrefixOf (a ++ b) c = true) : List.isPrefixOf a c = true := by
  induction a generalizing c with
  | nil => simp
  | cons x xs ih =>
    cases c with
    | nil => simp at h
    | cons y ys =>
      simp only [List.cons_append, List.isPrefixOf_cons₂, Bool.and_eq_true] at h ⊢
      exact ⟨h.1, ih ys h.2⟩

/-- A true descendant of `root` passes the source's string-prefix containment
check `normpath(full).startswith(normpath(root))`. -/
theorem startswith_of_isTrueDescendant (child root : String)
    (h : isTrueDescendant child root = true) :
    pyStartswith (normpath child) (normpath root) = true := by
  unfold isTrueDescendant at h
  simp only [Bool.and_eq_true] at h
  rcases h with ⟨-, hpre⟩
  by_cases hsl : pyEndswith (normpath root) "/" = true
  · rwa [if_pos hsl] at hpre
  · rw [if_neg hsl] at hpre
    unfold pyStartswith at hpre ⊢
    have hdata : (normpath root ++ "/").data = (normpath root).data ++ "/".data := by
      cases normpath root
      rfl
    rw [hdata] at hpre
    exact isPrefixOf_of_append _ _ _ hpre

/-- `process_generator` forwards every chunk unchanged: it is the identity on
the chunk sequence. -/
theorem process_generator_id (l : List String) : process_generator l = l := by
  induction l with
  | nil => rfl
  | cons c rest ih => simp [process_generator, ih]

/-- The `chat` handler never writes the server state. -/
theorem chat_fst (st : ServerState) (req : ChatRequest) : (chat st req).1 = st := by
  unfold chat
  split
  · split <;> rfl
  · split <;> rfl

/-- The `get_file` handler never writes the server state. -/
theorem get_file_fst (st : ServerState) (p tb : String) :
    (get_file st p tb).1 = st := by
  unfold get_file
  dsimp only
  split <;> rfl

/-- Route dispatch never writes the server state. -/
theorem handle_fst (st : ServerState) (r : Request) : (handle st r).1 = st := by
  cases r with
  | chatReq r => exact chat_fst st r
  | fileReq p tb => exact get_file_fst st p tb

/-- Serving any request sequence leaves the server state unchanged. -/
theorem serveAll_fixed (st : ServerState) (reqs : List Request) :
    serveAll st reqs = st := by
  induction reqs generalizing st with
  | nil => rfl
  | cons r rest ih => simp [serveAll, handle_fst, ih]

/-- Extract a streamed body: the concatenation of the chunks, if streaming. -/
def streamBody : Response → Option String
  | .streamResp cs => some (String.join cs)
  | _ => none

/-- Extract the `content` field of a non-streaming chat reply, if one. -/
def jsonContent : Response → Option String
  | .chatJSON c => some c
  | _ => none

/-! ## Fixtures for witnesses and counterexamples -/

/-- A coder for which `run` and `run_stream` agree on `"hi"`. -/
def coderW : Coder where
  run := fun _ => .ok "hello"
  run_stream := fun _ => .ok ["he", "llo"]
  repoRoot := "/repo"
  stream := true
  pretty := false

/-- Server state built on `coderW` with an empty repository. -/
def stW : ServerState := ⟨coderW, []⟩

/-- A coder whose calls always raise. -/
def coderE : Coder where
  run := fun _ => .error ⟨"boom", "TBC"⟩
  run_stream := fun _ => .error ⟨"boom", "TBC"⟩
  repoRoot := "/repo"
  stream := true
  pretty := false

/-- Server state built on `coderE`. -/
def stE : ServerState := ⟨coderE, []⟩

/-- Repository root `/a/b`, with an existing sibling-collision file
`/a/b-evil/x` outside the root. -/
def stC1 : ServerState := ⟨{ coderW with repoRoot := "/a/b" }, [("/a/b-evil/x", "secret")]⟩

/-- Repository root `/repo` over an empty file system. -/
def stEmpty : ServerState := ⟨coderW, []⟩

/-- Repository root `/repo` containing the file `notes/a.txt`. -/
def stRepo : ServerState := ⟨coderW, [("/repo/notes/a.txt", "hello")]⟩

/-! ## Claims -/

/-- Claim C1, amended. As stated the claim is false on the code (see the
counterexample): the containment check is the string-prefix test
`normpath(full_path).startswith(normpath(repo_root))`, which also accepts
sibling-prefix collisions such as root `/a/b` and path `/a/b-evil/x`; moreover
a rejected request is answered 500, not 404, because the handler's own
`HTTPException(404, ...)` is caught by the blanket `except Exception` and
re-wrapped. Amended statement: whenever the joined path is not an existing
regular file, or its normalized form does not start (as a string) with the
normalized repository root, `get_file` rejects the request with an error
response — a 500 whose detail embeds `File not found: <file_path>` — and never
returns a file's bytes. -/
theorem C1_get_file_rejects (st : ServerState) (p tb : String)
    (h : ¬(isfile st.fs (os_join st.coder.repoRoot p) = true ∧
      pyStartswith (normpath (os_join st.coder.repoRoot p))
        (normpath st.coder.repoRoot) = true)) :
    (get_file st p tb).2 =
      .httpError 500 (httpExcStr 404 ("File not found: " ++ p) ++ "\n" ++ tb) ∧
    ∀ q b, (get_file st p tb).2 ≠ Response.file q b := by
  have hc : (!isfile st.fs (os_join st.coder.repoRoot p) ||
      !pyStartswith (normpath (os_join st.coder.repoRoot p))
        (normpath st.coder.repoRoot)) = true := by
    rcases Decidable.not_and_iff_or_not.mp h with h1 | h1 <;>
      simp only [Bool.or_eq_true, Bool.not_eq_true', Bool.eq_false_iff]
    · exact Or.inl h1
    · exact Or.inr h1
  refine ⟨?_, ?_⟩
  · unfold get_file
    dsimp only
    rw [if_pos hc]
  · intro q b
    unfold get_file
    dsimp only
    rw [if_pos hc]
    simp

/-- Claim C1, counterexample to the claim as stated: with repository root
`/a/b` and existing file `/a/b-evil/x`, the requested path is not a descendant
of the root, yet `get_file` answers 200 with the file's bytes instead of
rejecting with 404. -/
theorem C1_counterexample :
    isTrueDescendant (os_join "/a/b" "/a/b-evil/x") "/a/b" = false ∧
    isfile stC1.fs (os_join "/a/b" "/a/b-evil/x") = true ∧
    (get_file stC1 "/a/b-evil/x" "TB").2 = Response.file "/a/b-evil/x" "secret" := by
  refine ⟨by decide, by decide, ?_⟩
  decide

/-- Claim C1, witness: a missing file under root `/repo` is rejected with the
500-wrapped `File not found` detail and no bytes. -/
theorem C1_witness :
    ¬(isfile stEmpty.fs (os_join stEmpty.coder.repoRoot "nope.txt") = true ∧
      pyStartswith (normpath (os_join stEmpty.coder.repoRoot "nope.txt"))
        (normpath stEmpty.coder.repoRoot) = true) ∧
    ((get_file stEmpty "nope.txt" "TB").2 =
      .httpError 500 (httpExcStr 404 ("File not found: " ++ "nope.txt") ++ "\n" ++ "TB") ∧
    ∀ q b, (get_file stEmpty "nope.txt" "TB").2 ≠ Response.file q b) :=
  ⟨by decide, C1_get_file_rejects stEmpty "nope.txt" "TB" (by decide)⟩

/-- Claim C2: the claim matches the code's own intent — the handler constructs
`HTTPException(status_code=404, detail=f"File not found: {file_path}")` — but
the raise sits inside the `try`, and `except Exception` catches
`HTTPException`, so the outgoing response is a 500 whose detail is
`str(e) + "\n" + traceback.format_exc()`, i.e. `404: File not found: <p>`
followed by a trace, not the 404 the claim (and the code's explicit raise)
call for. Evaluated here at the failing input: root `/repo`, empty file
system, request for `missing.txt`. -/
theorem C2_code_bug_eval :
    (get_file stEmpty "missing.txt" "TRACE").2 =
      Response.httpError 500 ("404: File not found: missing.txt" ++ "\n" ++ "TRACE") ∧
    (get_file stEmpty "missing.txt" "TRACE").2 ≠
      Response.httpError 404 "File not found: missing.txt" := by
  refine ⟨?_, by decide⟩
  decide

/-- Claim C3: with `stream=true` the response streams exactly the chunks of one
traversal of `coder.run_stream(message)` — `process_generator` forwards each
chunk unchanged, dropping, duplicating and reordering nothing — and whenever
the concatenation of those chunks equals the text `coder.run` returns for the
same message, the streamed body equals the non-streaming `content`. -/
theorem C3_stream_exact (st : ServerState) (msg : String) (chunks : List String)
    (h : st.coder.run_stream msg = .ok chunks) :
    (chat st ⟨msg, true⟩).2 = Response.streamResp (process_generator chunks) ∧
    process_generator chunks = chunks ∧
    ∀ r, st.coder.run msg = .ok r → String.join chunks = r →
      streamBody (chat st ⟨msg, true⟩).2 = jsonContent (chat st ⟨msg, false⟩).2 := by
  refine ⟨by simp [chat, h], process_generator_id chunks, ?_⟩
  intro r hr hjoin
  simp [chat, h, hr, streamBody, jsonContent, process_generator_id, hjoin]

/-- Claim C3, witness: `coderW.run_stream "hi"` yields `["he", "llo"]`, whose
concatenation is the `"hello"` returned by `coderW.run "hi"`. -/
theorem C3_witness :
    coderW.run_stream "hi" = .ok ["he", "llo"] ∧
    (chat stW ⟨"hi", true⟩).2 = Response.streamResp (process_generator ["he", "llo"]) ∧
    process_generator ["he", "llo"] = ["he", "llo"] ∧
    streamBody (chat stW ⟨"hi", true⟩).2 = jsonContent (chat stW ⟨"hi", false⟩).2 :=
  ⟨rfl, (C3_stream_exact stW "hi" ["he", "llo"] rfl).1,
    (C3_stream_exact stW "hi" ["he", "llo"] rfl).2.1,
    (C3_stream_exact stW "hi" ["he", "llo"] rfl).2.2 "hello" rfl (by decide)⟩

/-- Claim C4: with `stream=false`, when `coder.run` returns normally the reply
is the 200 JSON `ChatResponse` whose `content` is exactly the returned text. -/
theorem C4_blocking_content (st : ServerState) (msg r : String)
    (h : st.coder.run msg = .ok r) :
    (chat st ⟨msg, false⟩).2 = Response.chatJSON r := by
  simp [chat, h]

/-- Claim C4, witness at `coderW.run "hi" = "hello"`. -/
theorem C4_witness :
    coderW.run "hi" = .ok "hello" ∧
    (chat stW ⟨"hi", false⟩).2 = Response.chatJSON "hello" :=
  ⟨rfl, C4_blocking_content stW "hi" "hello" rfl⟩

/-- Claim C5: if the coder's call raises, the response is a 500 whose body is
the exception's message followed by its stack trace, identically in both
modes. -/
theorem C5_error_500 (st : ServerState) (msg : String) (e : PyExc) :
    (st.coder.run_stream msg = .error e →
      (chat st ⟨msg, true⟩).2 = .httpError 500 (e.msg ++ "\n" ++ e.trace)) ∧
    (st.coder.run msg = .error e →
      (chat st ⟨msg, false⟩).2 = .httpError 500 (e.msg ++ "\n" ++ e.trace)) := by
  constructor
  · intro h
    simp [chat, h]
  · intro h
    simp [chat, h]

/-- Claim C5, witness: `coderE` raises `boom` in both modes and both replies
are the same 500. -/
theorem C5_witness :
    (chat stE ⟨"x", true⟩).2 = Response.httpError 500 ("boom" ++ "\n" ++ "TBC") ∧
    (chat stE ⟨"x", false⟩).2 = Response.httpError 500 ("boom" ++ "\n" ++ "TBC") :=
  ⟨(C5_error_500 stE "x" ⟨"boom", "TBC"⟩).1 rfl,
    (C5_error_500 stE "x" ⟨"boom", "TBC"⟩).2 rfl⟩

/-- Claim C6: when joining the path to the repository root yields an existing
regular file whose normalized path is a true descendant of the root,
`get_file` returns 200 with `FileResponse(full_path)`: the body is exactly the
file bytes on disk, and the media type is the one the framework infers from
the name `full_path` the response carries. -/
theorem C6_serves_descendant (st : ServerState) (p tb content : String)
    (hfile : lookupFS st.fs (os_join st.coder.repoRoot p) = some content)
    (hdesc : isTrueDescendant (os_join st.coder.repoRoot p) st.coder.repoRoot = true) :
    (get_file st p tb).2 = Response.file (os_join st.coder.repoRoot p) content := by
  have hsw := startswith_of_isTrueDescendant _ _ hdesc
  have hif : isfile st.fs (os_join st.coder.repoRoot p) = true := by
    simp [isfile, hfile]
  simp [get_file, hif, hsw, fileBytes, hfile]

/-- Claim C6, witness: `notes/a.txt` under root `/repo` is served with its
contents. -/
theorem C6_witness :
    lookupFS stRepo.fs (os_join stRepo.coder.repoRoot "notes/a.txt") = some "hello" ∧
    isTrueDescendant (os_join stRepo.coder.repoRoot "notes/a.txt")
      stRepo.coder.repoRoot = true ∧
    (get_file stRepo "notes/a.txt" "TB").2 =
      Response.file (os_join stRepo.coder.repoRoot "notes/a.txt") "hello" :=
  ⟨by decide, by decide,
    C6_serves_descendant stRepo "notes/a.txt" "TB" "hello" (by decide) (by decide)⟩

/-- Claim C7: a chat body that omits `stream` parses with `stream = true`, so
the handler takes the streaming branch; a body lacking the required `message`
is rejected by validation before the handler runs. -/
theorem C7_parse_defaults (m : String) (s : Option Bool) :
    parseChatRequest ⟨some m, none⟩ = .ok { message := m, stream := true } ∧
    (∀ st : ServerState, ∀ gen, st.coder.run_stream m = .ok gen →
      (chat st { message := m, stream := true }).2 =
        Response.streamResp (process_generator gen)) ∧
    parseChatRequest ⟨none, s⟩ = .error "field required: message" := by
  refine ⟨rfl, ?_, rfl⟩
  intro st gen h
  simp [chat, h]

/-- Claim C7, witness: the parsed default-stream request drives `coderW` down
the streaming branch. -/
theorem C7_witness :
    parseChatRequest ⟨some "hi", none⟩ = .ok { message := "hi", stream := true } ∧
    (chat stW { message := "hi", stream := true }).2 =
      Response.streamResp (process_generator ["he", "llo"]) ∧
    parseChatRequest ⟨none, none⟩ = .error "field required: message" :=
  ⟨(C7_parse_defaults "hi" none).1,
    (C7_parse_defaults "hi" none).2.1 stW ["he", "llo"] rfl,
    (C7_parse_defaults "hi" none).2.2⟩

/-- Claim C8: `get_file` is read-only and idempotent: it returns the server
state (file system and coder) unchanged, and a second identical request run on
the state the first left behind yields the identical response. -/
theorem C8_get_file_idempotent (st : ServerState) (p tb : String) :
    (get_file st p tb).1 = st ∧
    (get_file (get_file st p tb).1 p tb).2 = (get_file st p tb).2 := by
  refine ⟨get_file_fst st p tb, ?_⟩
  rw [get_file_fst st p tb]

/-- Claim C9: for an absolute `file_path`, `os.path.join` discards the
repository root, so the request is answered with the file at `file_path`
itself exactly when that path is an existing regular file whose normalized
form starts with the normalized repository root. -/
theorem C9_absolute_path (st : ServerState) (p tb : String)
    (h : pyStartswith p "/" = true) :
    os_join st.coder.repoRoot p = p ∧
    ((get_file st p tb).2 = Response.file p (fileBytes st.fs p) ↔
      isfile st.fs p = true ∧
      pyStartswith (normpath p) (normpath st.coder.repoRoot) = true) := by
  have hj : os_join st.coder.repoRoot p = p := by simp [os_join, h]
  refine ⟨hj, ?_⟩
  cases hf : isfile st.fs p <;>
    cases hp : pyStartswith (normpath p) (normpath st.coder.repoRoot) <;>
      simp [get_file, hj, hf, hp]

/-- Claim C9, witness: the absolute path `/repo/notes/a.txt` inside root
`/repo` is itself served. -/
theorem C9_witness :
    pyStartswith "/repo/notes/a.txt" "/" = true ∧
    (os_join stRepo.coder.repoRoot "/repo/notes/a.txt" = "/repo/notes/a.txt" ∧
      ((get_file stRepo "/repo/notes/a.txt" "TB").2 =
          Response.file "/repo/notes/a.txt" (fileBytes stRepo.fs "/repo/notes/a.txt") ↔
        isfile stRepo.fs "/repo/notes/a.txt" = true ∧
        pyStartswith (normpath "/repo/notes/a.txt")
          (normpath stRepo.coder.repoRoot) = true)) :=
  ⟨by decide, C9_absolute_path stRepo "/repo/notes/a.txt" "TB" (by decide)⟩

/-- Claim C10: no handler mutates the coder — dispatching any request returns
the server state, in particular every coder attribute, unchanged — and the
flags `stream := true`, `pretty := false` are set by `start_server` at startup,
so they hold in the start state and still hold (the whole coder being the start
coder) after any sequence of requests has been served. -/
theorem C10_coder_frame (coder0 : Coder) (fs : FS) (reqs : List Request) :
    (start_server coder0 fs).coder.stream = true ∧
    (start_server coder0 fs).coder.pretty = false ∧
    (∀ st r, (handle st r).1 = st) ∧
    (serveAll (start_server coder0 fs) reqs).coder = (start_server coder0 fs).coder :=
  ⟨rfl, rfl, handle_fst, by rw [serveAll_fixed]⟩

end AiderServer
